import Mathlib

/-!
Verification of the boringcode.dev front-end components.

Two components are embedded here, following the TypeScript source:

* `PWAInstall` (the install-prompt controller): React state
  (`deferredPrompt`, `showInstallBanner`, `isInstalled`), the event
  handlers `handleBeforeInstallPrompt`, `handleAppInstalled`,
  `handleInstallClick`, `handleDismiss`, the mount effect, and the render
  guard.  Browser `localStorage` is modelled as an association list
  together with a flag saying whether writes succeed (reads of
  `localStorage.getItem` return `null` for a missing key; a failing
  `setItem` throws, which the source does not catch in `handleDismiss`).
  The asynchronous `prompt()` / `userChoice` sequence is modelled by a
  `PromptBehavior` argument describing what the platform does: the first
  await throws, the second await throws, or the user choice resolves with
  an outcome.

* `GitHubOrg` (the repository browser): the view-model derivation of
  `fetchData`, which filters out repositories whose name contains
  `".github"` and sorts the rest by `stargazers_count` descending
  (JavaScript `Array.prototype.sort` is stable, so a stable merge sort
  with the comparator `b.stargazers_count - a.stargazers_count` is the
  faithful model).
-/

namespace BoringCode

/-- Outcome of the user's choice on the native install prompt, from the
`BeforeInstallPromptEvent.userChoice` type in the source. -/
inductive Outcome
  | accepted
  | dismissed
deriving DecidableEq, Repr

/-- The deferred `BeforeInstallPromptEvent` capability handle.  Its only
data attribute in the source is the `platforms` list; the behaviour of
`prompt()` and `userChoice` is supplied by the environment per call. -/
structure Handle where
  platforms : List String
deriving DecidableEq, Repr

/-- The three React state variables of the `PWAInstall` component. -/
structure PWAState where
  deferredPrompt : Option Handle
  showInstallBanner : Bool
  isInstalled : Bool
deriving DecidableEq, Repr

/-- Browser `localStorage`, restricted to what the component uses: a
key-value map plus a flag saying whether `setItem` succeeds.  When
`writeOk` is false a write throws (as `localStorage.setItem` does when
storage is unavailable or full) while reads still work. -/
structure Storage where
  items : List (String × String)
  writeOk : Bool
deriving DecidableEq, Repr

/-- Model of `localStorage.getItem`: the stored value, or `none` for the
JavaScript `null` when the key is absent. -/
def Storage.getItem (st : Storage) (k : String) : Option String :=
  (st.items.find? (fun kv => kv.1 == k)).map (fun kv => kv.2)

/-- Model of `localStorage.setItem`: overwrites the binding for the key,
or throws when writes are unavailable. -/
def Storage.setItem (st : Storage) (k v : String) : Except Unit Storage :=
  if st.writeOk then
    Except.ok { st with items := (k, v) :: st.items.filter (fun kv => !(kv.1 == k)) }
  else
    Except.error ()

/-- The component state together with the browser storage it reads and
writes. -/
structure World where
  state : PWAState
  storage : Storage
deriving DecidableEq, Repr

/-- JavaScript truthiness of a `localStorage.getItem` result: `null` is
falsy, and a string is falsy exactly when it is empty. -/
def jsTruthy : Option String → Bool
  | none => false
  | some s => !(s == "")

/-- The `handleBeforeInstallPrompt` listener: suppress the default
handling (`e.preventDefault()`, a platform effect with no state in this
model), store the captured handle, then read the dismissal key
`"pwa-install-dismissed"`; if the stored value is falsy
(`if (!dismissed)`), show the banner. -/
def handleBeforeInstallPrompt (w : World) (e : Handle) : World :=
  let s := { w.state with deferredPrompt := some e }
  let dismissed := w.storage.getItem "pwa-install-dismissed"
  if jsTruthy dismissed then
    { w with state := s }
  else
    { w with state := { s with showInstallBanner := true } }

/-- The `handleAppInstalled` listener: set `isInstalled`, hide the
banner, clear the handle. -/
def handleAppInstalled (w : World) : World :=
  { w with state := { w.state with
      isInstalled := true
      showInstallBanner := false
      deferredPrompt := none } }

/-- What the platform does during the awaited `prompt()` /
`userChoice` sequence of `handleInstallClick`: the `prompt()` await
throws, the `userChoice` await throws, or the choice resolves with an
outcome and a platform string. -/
inductive PromptBehavior
  | promptThrows
  | choiceThrows
  | resolves (outcome : Outcome) (platform : String)
deriving DecidableEq, Repr

/-- Result of running `handleInstallClick`: the new world, whether
`prompt()` was invoked, and whether an exception escaped to the caller. -/
structure ClickResult where
  world : World
  promptInvoked : Bool
  exceptionEscaped : Bool
deriving DecidableEq, Repr

/-- The `handleInstallClick` handler.  With no handle it returns at once.
Otherwise it invokes `prompt()` and awaits the user choice inside a
`try`: if either await throws, the `catch` logs the error and nothing
else runs — in particular `setDeferredPrompt(null)` is inside the `try`
after both awaits, so the handle is NOT cleared on the failure paths.
On a resolved choice, `"accepted"` hides the banner, and the handle is
cleared regardless of the outcome. -/
def handleInstallClick (w : World) (b : PromptBehavior) : ClickResult :=
  match w.state.deferredPrompt with
  | none => ⟨w, false, false⟩
  | some _ =>
    match b with
    | .promptThrows => ⟨w, true, false⟩
    | .choiceThrows => ⟨w, true, false⟩
    | .resolves outcome _ =>
      let s1 := if outcome = Outcome.accepted then
                  { w.state with showInstallBanner := false }
                else
                  w.state
      ⟨{ w with state := { s1 with deferredPrompt := none } }, true, false⟩

/-- Result of running `handleDismiss`: the new world and whether an
exception escaped to the caller. -/
structure DismissResult where
  world : World
  exceptionEscaped : Bool
deriving DecidableEq, Repr

/-- The `handleDismiss` handler: hide the banner, then write
`"true"` under `"pwa-install-dismissed"`.  The write is not wrapped in a
`try`, so when it throws the exception escapes; the banner update has
already been issued at that point. -/
def handleDismiss (w : World) : DismissResult :=
  let s := { w.state with showInstallBanner := false }
  match w.storage.setItem "pwa-install-dismissed" "true" with
  | Except.ok st => ⟨⟨s, st⟩, false⟩
  | Except.error _ => ⟨⟨s, w.storage⟩, true⟩

/-- The two click handlers a rendered button can be wired to. -/
inductive HandlerTag
  | installClick
  | dismissClick
deriving DecidableEq, Repr

/-- A rendered button: the handler its `onClick` is wired to and its
visible label (for the icon-only close button, its `aria-label`). -/
structure Button where
  handler : HandlerTag
  label : String
deriving DecidableEq, Repr

/-- The render function of `PWAInstall`, abstracted to its interactive
content: `null` under the guard
`isInstalled || !showInstallBanner || !deferredPrompt`, otherwise the
banner with its three buttons in source order — "Install" wired to
`handleInstallClick`, "Not now" wired to `handleDismiss`, and the close
icon (aria-label "Dismiss install prompt") also wired to
`handleDismiss`. -/
def render (s : PWAState) : Option (List Button) :=
  if s.isInstalled || !s.showInstallBanner || s.deferredPrompt.isNone then
    none
  else
    some [⟨HandlerTag.installClick, "Install"⟩,
          ⟨HandlerTag.dismissClick, "Not now"⟩,
          ⟨HandlerTag.dismissClick, "Dismiss install prompt"⟩]

/-- Run the handler a button is wired to, returning the new world and
whether the native prompt was invoked (`handleDismiss` never invokes
it). -/
def runHandler (w : World) (b : PromptBehavior) : HandlerTag → World × Bool
  | .installClick => let r := handleInstallClick w b; (r.world, r.promptInvoked)
  | .dismissClick => ((handleDismiss w).world, false)

/-- The initial React state: no handle, banner hidden, not installed. -/
def initialState : PWAState :=
  { deferredPrompt := none, showInstallBanner := false, isInstalled := false }

/-- The mount effect: query standalone display mode and the iOS
standalone flag; if either holds, set `isInstalled` and return without
registering listeners.  Otherwise register the two listeners.  Returns
the state after the effect and whether the listeners were registered. -/
def mount (isStandalone isInWebAppiOS : Bool) : PWAState × Bool :=
  if isStandalone || isInWebAppiOS then
    ({ initialState with isInstalled := true }, false)
  else
    (initialState, true)

/-- An event the controller can process after mount: one of the two
platform events, or one of the two user clicks. -/
inductive Event
  | beforeInstallPrompt (e : Handle)
  | appInstalled
  | installClick (b : PromptBehavior)
  | dismissClick
deriving Repr

/-- One step of the controller: dispatch an event to its handler. -/
def step (w : World) : Event → World
  | .beforeInstallPrompt e => handleBeforeInstallPrompt w e
  | .appInstalled => handleAppInstalled w
  | .installClick b => (handleInstallClick w b).world
  | .dismissClick => (handleDismiss w).world

/-- Run a sequence of events from a world. -/
def steps (w : World) : List Event → World
  | [] => w
  | e :: es => steps (step w e) es

/-- A platform-dispatched event (the two `window` events the component
listens for). -/
inductive PlatformEvent
  | beforeInstallPrompt (e : Handle)
  | appInstalled
deriving Repr

/-- Deliver a platform event: it only reaches a handler when the
listeners were registered at mount; otherwise nothing observes it. -/
def dispatch (registered : Bool) (w : World) (pe : PlatformEvent) : World :=
  if registered then
    match pe with
    | .beforeInstallPrompt e => handleBeforeInstallPrompt w e
    | .appInstalled => handleAppInstalled w
  else
    w

/-- Deliver a sequence of platform events. -/
def dispatches (registered : Bool) (w : World) : List PlatformEvent → World
  | [] => w
  | pe :: pes => dispatches registered (dispatch registered w pe) pes

/-- A repository record as the `GitHubOrg` component types the GitHub
API response. -/
structure Repository where
  id : Nat
  name : String
  description : Option String
  html_url : String
  stargazers_count : Nat
  forks_count : Nat
  language : Option String
  topics : List String
  updated_at : String
  pushed_at : String
deriving DecidableEq, Repr

/-- JavaScript `String.prototype.includes`: the pattern occurs as a
contiguous substring. -/
def strIncludes (s pat : String) : Bool :=
  s.toList.tails.any (fun t => pat.toList.isPrefixOf t)

/-- The comparator `(a, b) => b.stargazers_count - a.stargazers_count`
as the "a may come before b" relation of a stable sort: the comparator
is non-positive, i.e. `b`'s stars do not exceed `a`'s. -/
def starsDesc (a b : Repository) : Bool :=
  b.stargazers_count ≤ a.stargazers_count

/-- The view-model derivation in `fetchData`: drop repositories whose
name contains `".github"`, then sort by stars descending (stable, as
JavaScript `Array.prototype.sort` is). -/
def deriveRepos (reposData : List Repository) : List Repository :=
  (reposData.filter (fun repo => !(strIncludes repo.name ".github"))).mergeSort starsDesc

/-! ### Theorems -/

/-- C1: for `handleInstallClick`, an empty handle makes the call a no-op
with no state changes; with a non-empty handle, an `"accepted"` outcome
yields `bannerVisible = false` and `handle = empty`, and a `"dismissed"`
outcome leaves `bannerVisible` at its pre-call value while still
clearing the handle. -/
theorem installClick_spec (w : World) (b : PromptBehavior) :
    (w.state.deferredPrompt = none → handleInstallClick w b = ⟨w, false, false⟩) ∧
    (∀ h pf, w.state.deferredPrompt = some h →
      (handleInstallClick w (.resolves .accepted pf)).world.state.showInstallBanner = false ∧
      (handleInstallClick w (.resolves .accepted pf)).world.state.deferredPrompt = none) ∧
    (∀ h pf, w.state.deferredPrompt = some h →
      (handleInstallClick w (.resolves .dismissed pf)).world.state.showInstallBanner
        = w.state.showInstallBanner ∧
      (handleInstallClick w (.resolves .dismissed pf)).world.state.deferredPrompt = none) := by
  refine ⟨fun hn => ?_, fun h pf hs => ?_, fun h pf hs => ?_⟩ <;>
    simp [handleInstallClick, *]

/-- C1 witness: the theorem applied at a concrete world holding a handle,
with the choice resolving as accepted. -/
theorem installClick_spec_witness :
    (handleInstallClick ⟨⟨some ⟨["web"]⟩, true, false⟩, ⟨[], true⟩⟩
        (.resolves .accepted "web")).world.state.showInstallBanner = false ∧
    (handleInstallClick ⟨⟨some ⟨["web"]⟩, true, false⟩, ⟨[], true⟩⟩
        (.resolves .accepted "web")).world.state.deferredPrompt = none :=
  (installClick_spec ⟨⟨some ⟨["web"]⟩, true, false⟩, ⟨[], true⟩⟩
      (.resolves .accepted "web")).2.1 ⟨["web"]⟩ "web" rfl

/-- C2 counterexample: when the awaited sequence fails (here the
`prompt()` await throws) the handle is NOT cleared, because
`setDeferredPrompt(null)` sits inside the `try` after both awaits.  The
claim's "handle = empty afterwards" is false at this concrete input. -/
theorem installClick_failure_cex :
    ¬ ((handleInstallClick ⟨⟨some ⟨["web"]⟩, true, false⟩, ⟨[], true⟩⟩
        PromptBehavior.promptThrows).world.state.deferredPrompt = none) := by
  decide

/-- C2 amended: every failure during the awaited `prompt()` /
`userChoice` sequence is caught (it never escapes to the caller, and the
source logs it), and it leaves the whole world unchanged — in
particular `bannerVisible` keeps its pre-call value and the handle keeps
its pre-call value rather than being cleared.  `prompt()` counts as
invoked exactly when a handle was present. -/
theorem installClick_failure_spec (w : World) :
    handleInstallClick w PromptBehavior.promptThrows
      = ⟨w, w.state.deferredPrompt.isSome, false⟩ ∧
    handleInstallClick w PromptBehavior.choiceThrows
      = ⟨w, w.state.deferredPrompt.isSome, false⟩ := by
  cases hd : w.state.deferredPrompt <;> simp [handleInstallClick, hd]

/-- C3 counterexample: when the storage write throws (storage
unavailable), `handleDismiss` persists nothing — the stored value under
`"pwa-install-dismissed"` is not `"true"` afterwards, so the claim's
"persisted record equals `"true"` even when the write throws" fails. -/
theorem dismiss_throwing_write_cex :
    ¬ ((handleDismiss ⟨⟨some ⟨["web"]⟩, true, false⟩,
          ⟨[], false⟩⟩).world.storage.getItem "pwa-install-dismissed"
        = some "true") := by
  decide

/-- C3 amended: `handleDismiss` always results in
`bannerVisible = false`, even when the storage write throws (the banner
update precedes the write).  When the write succeeds the persisted
record equals `"true"` and no exception escapes; when the write throws,
storage is unchanged (no record is persisted) and the exception escapes
the handler, which has no `try`/`catch`. -/
theorem dismiss_spec (w : World) :
    (handleDismiss w).world.state.showInstallBanner = false ∧
    (w.storage.writeOk = true →
      (handleDismiss w).world.storage.getItem "pwa-install-dismissed" = some "true" ∧
      (handleDismiss w).exceptionEscaped = false) ∧
    (w.storage.writeOk = false →
      (handleDismiss w).world.storage = w.storage ∧
      (handleDismiss w).exceptionEscaped = true) := by
  cases hw : w.storage.writeOk <;>
    simp [handleDismiss, Storage.setItem, Storage.getItem, hw, List.find?]

/-- C3 witness: the amended theorem applied at a concrete world whose
storage accepts writes. -/
theorem dismiss_spec_witness :
    (handleDismiss ⟨⟨some ⟨["web"]⟩, true, false⟩,
        ⟨[], true⟩⟩).world.storage.getItem "pwa-install-dismissed" = some "true" :=
  ((dismiss_spec ⟨⟨some ⟨["web"]⟩, true, false⟩, ⟨[], true⟩⟩).2.1 rfl).1

/-- C9: after `handleInstallClick` completes with outcome
`"dismissed"`, `bannerVisible` is still true but the render guard
requires a non-empty handle, so the component renders nothing for the
rest of the session. -/
theorem dismissed_outcome_renders_nothing (w : World) (h : Handle) (pf : String)
    (hd : w.state.deferredPrompt = some h) (hb : w.state.showInstallBanner = true) :
    render (handleInstallClick w (.resolves .dismissed pf)).world.state = none ∧
    (handleInstallClick w (.resolves .dismissed pf)).world.state.showInstallBanner = true := by
  simp [handleInstallClick, render, hd, hb]

/-- C9 witness: the theorem applied at a concrete world with a handle
and a visible banner. -/
theorem dismissed_outcome_renders_nothing_witness :
    render (handleInstallClick ⟨⟨some ⟨["web"]⟩, true, false⟩, ⟨[], true⟩⟩
        (.resolves .dismissed "web")).world.state = none ∧
    (handleInstallClick ⟨⟨some ⟨["web"]⟩, true, false⟩, ⟨[], true⟩⟩
        (.resolves .dismissed "web")).world.state.showInstallBanner = true :=
  dismissed_outcome_renders_nothing ⟨⟨some ⟨["web"]⟩, true, false⟩, ⟨[], true⟩⟩
    ⟨["web"]⟩ "web" rfl rfl

/-- C4: on an installability signal, `handleBeforeInstallPrompt`
captures the handle; with no dismissal record under
`"pwa-install-dismissed"` it sets `bannerVisible = true`, and with a
dismissal record present (a non-empty stored value — in particular the
`"true"` the component itself persists) it leaves `bannerVisible` and
`installed` untouched, so a hidden banner stays hidden. -/
theorem beforeInstallPrompt_spec (w : World) (e : Handle) :
    (w.storage.getItem "pwa-install-dismissed" = none →
      (handleBeforeInstallPrompt w e).state.deferredPrompt = some e ∧
      (handleBeforeInstallPrompt w e).state.showInstallBanner = true) ∧
    (∀ v, w.storage.getItem "pwa-install-dismissed" = some v → v ≠ "" →
      (handleBeforeInstallPrompt w e).state.deferredPrompt = some e ∧
      (handleBeforeInstallPrompt w e).state.showInstallBanner = w.state.showInstallBanner ∧
      (handleBeforeInstallPrompt w e).state.isInstalled = w.state.isInstalled) := by
  constructor
  · intro hget
    simp [handleBeforeInstallPrompt, jsTruthy, hget]
  · intro v hget hv
    simp [handleBeforeInstallPrompt, jsTruthy, hget, hv]

/-- C4 witness: the theorem applied where storage holds the record
`"true"` that `handleDismiss` writes, starting from a hidden banner. -/
theorem beforeInstallPrompt_spec_witness :
    (handleBeforeInstallPrompt
        ⟨⟨none, false, false⟩, ⟨[("pwa-install-dismissed", "true")], true⟩⟩
        ⟨["web"]⟩).state.deferredPrompt = some ⟨["web"]⟩ ∧
    (handleBeforeInstallPrompt
        ⟨⟨none, false, false⟩, ⟨[("pwa-install-dismissed", "true")], true⟩⟩
        ⟨["web"]⟩).state.showInstallBanner = false :=
  ⟨((beforeInstallPrompt_spec
        ⟨⟨none, false, false⟩, ⟨[("pwa-install-dismissed", "true")], true⟩⟩
        ⟨["web"]⟩).2 "true" rfl (by decide)).1,
   ((beforeInstallPrompt_spec
        ⟨⟨none, false, false⟩, ⟨[("pwa-install-dismissed", "true")], true⟩⟩
        ⟨["web"]⟩).2 "true" rfl (by decide)).2.1⟩

/-- C10: the dismissal check is by JavaScript truthiness, not equality
with `"true"`: any non-empty stored value (for example `"false"`)
suppresses the banner on an installability signal, and the banner is
shown exactly when the stored value is absent or the empty string. -/
theorem dismissal_check_truthiness (w : World) (e : Handle) :
    (∀ v, w.storage.getItem "pwa-install-dismissed" = some v → v ≠ "" →
      w.state.showInstallBanner = false →
      (handleBeforeInstallPrompt w e).state.showInstallBanner = false) ∧
    (w.storage.getItem "pwa-install-dismissed" = none ∨
        w.storage.getItem "pwa-install-dismissed" = some "" →
      (handleBeforeInstallPrompt w e).state.showInstallBanner = true) := by
  constructor
  · intro v hget hv hb
    simp [handleBeforeInstallPrompt, jsTruthy, hget, hv, hb]
  · rintro (hget | hget) <;> simp [handleBeforeInstallPrompt, jsTruthy, hget]

/-- C10 witness: the theorem applied where the stored value is
`"false"` — still truthy, so the banner stays hidden. -/
theorem dismissal_check_truthiness_witness :
    (handleBeforeInstallPrompt
        ⟨⟨none, false, false⟩, ⟨[("pwa-install-dismissed", "false")], true⟩⟩
        ⟨["web"]⟩).state.showInstallBanner = false :=
  (dismissal_check_truthiness
      ⟨⟨none, false, false⟩, ⟨[("pwa-install-dismissed", "false")], true⟩⟩
      ⟨["web"]⟩).1 "false" rfl (by decide) rfl

/-- Helper: no handler ever resets `isInstalled` to false, so the flag
is preserved by every step. -/
theorem installed_mono (w : World) (e : Event) (hw : w.state.isInstalled = true) :
    (step w e).state.isInstalled = true := by
  obtain ⟨⟨dp, bv, inst⟩, st⟩ := w
  cases e with
  | beforeInstallPrompt h =>
      simp only [step, handleBeforeInstallPrompt]
      split <;> simpa using hw
  | appInstalled => simp [step, handleAppInstalled]
  | installClick b =>
      cases dp with
      | none => simpa [step, handleInstallClick] using hw
      | some h =>
        cases b with
        | promptThrows => simpa [step, handleInstallClick] using hw
        | choiceThrows => simpa [step, handleInstallClick] using hw
        | resolves o pf =>
            cases o <;> simpa [step, handleInstallClick] using hw
  | dismissClick =>
      simp only [step, handleDismiss]
      cases hset : Storage.setItem st "pwa-install-dismissed" "true" <;>
        simpa [hset] using hw

/-- Helper: `isInstalled` stays true across any sequence of steps. -/
theorem steps_installed (w : World) (hw : w.state.isInstalled = true) :
    ∀ evs : List Event, (steps w evs).state.isInstalled = true := by
  intro evs
  induction evs generalizing w with
  | nil => exact hw
  | cons e es ih => exact ih _ (installed_mono w e hw)

/-- C5: the installed-confirmation event sets `installed = true`,
`bannerVisible = false` and clears the handle, and `installed = true` is
terminal: after any further sequence of events (installability signals,
install clicks, dismiss clicks, further installed events) the flag is
still true. -/
theorem appInstalled_terminal (w : World) :
    (step w Event.appInstalled).state.isInstalled = true ∧
    (step w Event.appInstalled).state.showInstallBanner = false ∧
    (step w Event.appInstalled).state.deferredPrompt = none ∧
    ∀ evs : List Event, (steps (step w Event.appInstalled) evs).state.isInstalled = true := by
  refine ⟨?_, ?_, ?_, ?_⟩
  · simp [step, handleAppInstalled]
  · simp [step, handleAppInstalled]
  · simp [step, handleAppInstalled]
  · exact steps_installed _ (by simp [step, handleAppInstalled])

/-- Helper: with no listeners registered, platform events change
nothing. -/
theorem dispatches_unregistered (w : World) :
    ∀ pes : List PlatformEvent, dispatches false w pes = w := by
  intro pes
  induction pes generalizing w with
  | nil => rfl
  | cons pe pes ih => simpa [dispatches, dispatch] using ih w

/-- C7: when the platform reports standalone display mode (or the iOS
standalone flag) at mount, the controller sets `installed = true`,
registers no listeners, and renders nothing; since nothing is
registered, no sequence of later platform events changes its state or
makes it render output. -/
theorem standalone_mount_spec (sa ios : Bool) (hsa : (sa || ios) = true)
    (storage : Storage) :
    (mount sa ios).1.isInstalled = true ∧
    (mount sa ios).2 = false ∧
    render (mount sa ios).1 = none ∧
    ∀ pes : List PlatformEvent,
      (dispatches (mount sa ios).2 ⟨(mount sa ios).1, storage⟩ pes).state
          = (mount sa ios).1 ∧
      render (dispatches (mount sa ios).2 ⟨(mount sa ios).1, storage⟩ pes).state
          = none := by
  refine ⟨?_, ?_, ?_, ?_⟩
  · simp [mount, hsa, initialState]
  · simp [mount, hsa]
  · simp [mount, hsa, initialState, render]
  · intro pes
    have h2 : (mount sa ios).2 = false := by simp [mount, hsa]
    rw [h2, dispatches_unregistered ⟨(mount sa ios).1, storage⟩ pes]
    exact ⟨rfl, by simp [mount, hsa, initialState, render]⟩

/-- C7 witness: the theorem applied with standalone display mode
reported and empty storage. -/
theorem standalone_mount_spec_witness :
    (mount true false).1.isInstalled = true ∧
    (mount true false).2 = false ∧
    render (mount true false).1 = none :=
  ⟨(standalone_mount_spec true false rfl ⟨[], true⟩).1,
   (standalone_mount_spec true false rfl ⟨[], true⟩).2.1,
   (standalone_mount_spec true false rfl ⟨[], true⟩).2.2.1⟩

/-- Helper: `handleDismiss` hides the banner whether or not the storage
write succeeds. -/
theorem handleDismiss_hides_banner (w : World) :
    (handleDismiss w).world.state.showInstallBanner = false := by
  simp only [handleDismiss]
  cases Storage.setItem w.storage "pwa-install-dismissed" "true" <;> rfl

/-- C6: the render function returns nothing exactly when
`installed = true` or `bannerVisible = false` or the handle is empty;
otherwise it renders exactly three buttons — install ("Install"),
dismiss ("Not now"), and the neutral close affordance (aria-label
"Dismiss install prompt") — each of whose handlers can drive
`bannerVisible` to false, and the install button is the only one whose
handler invokes the native prompt. -/
theorem render_contract (s : PWAState) (storage : Storage) :
    (render s = none ↔
      (s.isInstalled = true ∨ s.showInstallBanner = false ∨ s.deferredPrompt = none)) ∧
    (∀ btns, render s = some btns →
      btns.map Button.handler
          = [HandlerTag.installClick, HandlerTag.dismissClick, HandlerTag.dismissClick] ∧
      btns.map Button.label = ["Install", "Not now", "Dismiss install prompt"] ∧
      (∀ btn ∈ btns, ∃ b : PromptBehavior,
        (runHandler ⟨s, storage⟩ b btn.handler).1.state.showInstallBanner = false) ∧
      (∀ btn ∈ btns,
        (∃ b : PromptBehavior, (runHandler ⟨s, storage⟩ b btn.handler).2 = true)
          ↔ btn.handler = HandlerTag.installClick)) := by
  obtain ⟨dp, bv, inst⟩ := s
  constructor
  · simp only [render]
    split
    · rename_i hcond
      simp only [true_iff]
      simp only [Bool.or_eq_true, Bool.not_eq_true', Option.isNone_iff_eq_none] at hcond
      tauto
    · rename_i hcond
      simp only [reduceCtorEq, false_iff]
      simp only [Bool.or_eq_true, Bool.not_eq_true', Option.isNone_iff_eq_none,
        not_or] at hcond
      tauto
  · intro btns hr
    simp only [render] at hr
    split at hr
    · exact absurd hr (by simp)
    · rename_i hcond
      simp only [Bool.or_eq_true, Bool.not_eq_true', Option.isNone_iff_eq_none,
        not_or] at hcond
      obtain ⟨⟨hinst, hbv⟩, hdp⟩ := hcond
      obtain ⟨h, hh⟩ := Option.ne_none_iff_exists.mp hdp
      replace hinst : inst = false := by
        cases inst
        · rfl
        · exact absurd rfl hinst
      replace hbv : bv = true := by
        cases bv
        · exact absurd rfl hbv
        · rfl
      obtain rfl : _ = btns := Option.some.inj hr
      subst hinst hbv
      refine ⟨rfl, rfl, ?_, ?_⟩
      · simp only [List.forall_mem_cons]
        refine ⟨?_, ?_, ?_, ?_⟩
        · exact ⟨PromptBehavior.resolves Outcome.accepted "",
            by simp [runHandler, handleInstallClick, ← hh]⟩
        · refine ⟨PromptBehavior.promptThrows, ?_⟩
          exact handleDismiss_hides_banner _
        · refine ⟨PromptBehavior.promptThrows, ?_⟩
          exact handleDismiss_hides_banner _
        · intro x hx
          exact absurd hx (List.not_mem_nil x)
      · simp only [List.forall_mem_cons]
        refine ⟨?_, ?_, ?_, ?_⟩
        · simp only [iff_true]
          exact ⟨PromptBehavior.promptThrows,
            by simp [runHandler, handleInstallClick, ← hh]⟩
        · simp [runHandler]
        · simp [runHandler]
        · intro x hx
          exact absurd hx (List.not_mem_nil x)

/-- C6 witness: the theorem applied at a concrete visible state,
yielding the rendered button list and the install button's ability to
hide the banner. -/
theorem render_contract_witness :
    render ⟨some ⟨["web"]⟩, true, false⟩
        = some [⟨HandlerTag.installClick, "Install"⟩,
                ⟨HandlerTag.dismissClick, "Not now"⟩,
                ⟨HandlerTag.dismissClick, "Dismiss install prompt"⟩] ∧
    (∃ b : PromptBehavior,
      (runHandler ⟨⟨some ⟨["web"]⟩, true, false⟩, ⟨[], true⟩⟩ b
          HandlerTag.installClick).1.state.showInstallBanner = false) :=
  ⟨rfl,
   ((render_contract ⟨some ⟨["web"]⟩, true, false⟩ ⟨[], true⟩).2 _ rfl).2.2.1
     ⟨HandlerTag.installClick, "Install"⟩ (List.mem_cons_self _ _)⟩

/-- C8: the repository view model derived in `fetchData` is a
permutation of exactly the fetched repositories whose name does not
contain `".github"` (so it contains those and no others, with
multiplicity), and it is arranged by `stargazers_count` descending:
every element's star count is at least every later element's. -/
theorem deriveRepos_spec (l : List Repository) :
    (deriveRepos l).Perm (l.filter (fun r => !(strIncludes r.name ".github"))) ∧
    (∀ r : Repository, r ∈ deriveRepos l ↔
      (r ∈ l ∧ strIncludes r.name ".github" = false)) ∧
    (deriveRepos l).Pairwise
      (fun a b => b.stargazers_count ≤ a.stargazers_count) := by
  have hperm : (deriveRepos l).Perm
      (l.filter (fun r => !(strIncludes r.name ".github"))) :=
    List.mergeSort_perm _ starsDesc
  refine ⟨hperm, ?_, ?_⟩
  · intro r
    rw [hperm.mem_iff, List.mem_filter]
    simp [Bool.not_eq_true']
  · have hsorted := @List.sorted_mergeSort Repository starsDesc
      (fun a b c hab hbc => by
        simp only [starsDesc, decide_eq_true_eq] at hab hbc ⊢
        exact le_trans hbc hab)
      (fun a b => by
        simp only [starsDesc, Bool.or_eq_true, decide_eq_true_eq]
        exact Nat.le_total b.stargazers_count a.stargazers_count)
      (l.filter (fun r => !(strIncludes r.name ".github")))
    exact hsorted.imp (fun hab => by
      simpa [starsDesc, decide_eq_true_eq] using hab)

end BoringCode
